import Mathlib

/-!
Verification development for the flight-offer fetch-and-normalize pipeline
(`amadeusOperator.py`, `flightOfferProcessor.py`).

The Python code is shallowly embedded: pandas tables become lists of row
records, numeric cells become `ℚ`/`Int`, CSV/NaN cells become `Option String`,
and Python exceptions become `Except Unit`.  Library calls
(`pd.to_timedelta`, `pd.to_datetime`, `float`) are modelled by executable Lean
functions over the value shapes the program actually feeds them.
-/

deriving instance DecidableEq for Except

namespace FlightSearch

/-! ## Offer fetcher (`amadeusOperator.py`) -/

/-- One transport segment of an itinerary, as delivered by the provider:
`segments[i]['departure']['at']`, `...['departure']['iataCode']`,
`...['arrival']['iataCode']`, `...['duration']`. -/
structure Segment where
  departureAt : String
  departureIata : String
  arrivalIata : String
  duration : String
  deriving DecidableEq

/-- One itinerary: `itinerary['duration']` and `itinerary['segments']`. -/
structure Itinerary where
  duration : String
  segments : List Segment
  deriving DecidableEq

/-- The pricing object `offer['price']`.  `total` holds the result of
`float(offer['price']['total'])`: `none` models a `ValueError` from `float`,
`some q` the parsed decimal value. -/
structure OfferPrice where
  total : Option ℚ
  currency : String
  deriving DecidableEq

/-- One offer object from the provider response. -/
structure Offer where
  itineraries : List Itinerary
  price : OfferPrice
  deriving DecidableEq

/-- The flat record appended per accepted offer (the `offer_to_add` dict in
`AmadeusOperator._add_offers_to_df`): 11 positional columns. -/
structure RawRow where
  currency : String
  price : ℚ
  date : String
  stops : Int
  iataOrigin : String
  iataDestination : String
  duration : String
  iata1Origin : String
  iata1Destination : String
  duration1 : String
  totalDuration : String
  deriving DecidableEq

/-- One iteration of the loop body of `AmadeusOperator._add_offers_to_df`:
`Except.error` models an uncaught Python exception (`IndexError` on
`itineraries[0]` / `segments[0]`), `.ok none` a `continue` (offer skipped),
`.ok (some r)` the row concatenated onto the frame. -/
def addOffer (o : Offer) (maxPrice : ℚ) : Except Unit (Option RawRow) :=
  match o.itineraries.head? with
  | none => .error ()
  | some itin =>
    match o.price.total with
    | none => .ok none
    | some totalPrice =>
      if totalPrice > maxPrice then .ok none
      else
        let numOfStops : Int := (itin.segments.length : Int) - 1
        if numOfStops > 1 then .ok none
        else
          match itin.segments.head? with
          | none => .error ()
          | some seg0 =>
            let baseRow : RawRow :=
              { currency := o.price.currency
                price := totalPrice
                date := seg0.departureAt
                stops := numOfStops
                iataOrigin := seg0.departureIata
                iataDestination := seg0.arrivalIata
                duration := seg0.duration
                iata1Origin := ""
                iata1Destination := ""
                duration1 := ""
                totalDuration := itin.duration }
            if numOfStops > 0 then
              match itin.segments.get? 1 with
              | none => .error ()
              | some seg1 =>
                .ok (some { baseRow with
                              iata1Origin := seg1.departureIata
                              iata1Destination := seg1.arrivalIata
                              duration1 := seg1.duration })
            else .ok (some baseRow)

/-- `AmadeusOperator._add_offers_to_df`: folds the loop over the offer list,
appending each produced row to the frame `df` (`pd.concat`). -/
def addOffersToDf (df : List RawRow) (offerLst : List Offer) (maxPrice : ℚ) :
    Except Unit (List RawRow) :=
  match offerLst with
  | [] => .ok df
  | o :: rest =>
    match addOffer o maxPrice with
    | .error e => .error e
    | .ok none => addOffersToDf df rest maxPrice
    | .ok (some r) => addOffersToDf (df ++ [r]) rest maxPrice

/-- Result of the success branch of `AmadeusOperator.get_flight_offers`:
the rows appended to the CSV (`df.to_csv(filepath, mode='a', ...)`) and the
value returned to the caller (`return offer_lst`). -/
structure FetchSuccess where
  appendedRows : List RawRow
  returned : List Offer
  deriving DecidableEq

/-- Success branch of `AmadeusOperator.get_flight_offers` (after the provider
responded with `offer_lst`): builds the frame with `max_price=400`, appends it
to the file, and returns `offer_lst`. -/
def getFlightOffersSuccess (offerLst : List Offer) : Except Unit FetchSuccess :=
  match addOffersToDf [] offerLst 400 with
  | .error e => .error e
  | .ok rows => .ok { appendedRows := rows, returned := offerLst }

/-- Modelled from the spec's words (not from the source), for comparison with
`getFlightOffersSuccess`: "the accepted offer list, i.e. exactly the offers
that survived the price-parse, price-ceiling, and segment-count filters". -/
def acceptedOffers (offerLst : List Offer) (maxPrice : ℚ) : List Offer :=
  offerLst.filter fun o =>
    match o.itineraries.head? with
    | none => false
    | some itin =>
      match o.price.total with
      | none => false
      | some p =>
        decide (p ≤ maxPrice) && decide (itin.segments.length ≤ 2) &&
          !itin.segments.isEmpty

/-! ## Timedelta / datetime library model

`pd.to_timedelta` is modelled on the two string shapes the normalizer feeds
it: ISO-8601-like duration strings (`"PT9H45M"`) coming from the provider,
and `"HH:MM:SS"` strings produced by the pipeline itself.  A `NaN` cell is
`none` and maps to `NaT` (`.ok none`); a string in neither shape raises
`ValueError` (`.error ()`). -/

/-- Longest digit run at the front of a character list, and the rest. -/
def takeDigits : List Char → List Char × List Char
  | [] => ([], [])
  | c :: cs =>
    if c.isDigit then
      let (ds, rest) := takeDigits cs
      (c :: ds, rest)
    else ([], c :: cs)

/-- Numeric value of a digit run. -/
def digitsVal (ds : List Char) : Nat :=
  ds.foldl (fun a c => a * 10 + (c.toNat - 48)) 0

/-- Parse `<digits><u>` at the front of `cs`; `none` if absent. -/
def parseUnit (u : Char) (cs : List Char) : Option (Nat × List Char) :=
  match takeDigits cs with
  | ([], _) => none
  | (ds, rest) =>
    match rest with
    | [] => none
    | r :: rest2 => if r = u then some (digitsVal ds, rest2) else none

/-- Parse an optional `<digits><u>` component, defaulting to 0. -/
def parseOpt (u : Char) (cs : List Char) : Nat × List Char :=
  match parseUnit u cs with
  | some (n, rest) => (n, rest)
  | none => (0, cs)

/-- Seconds denoted by an ISO-8601-like duration string `PT<h>H<m>M<s>S`
(each component optional), as `pd.to_timedelta` reads the provider's
duration encoding; `none` if the string is not of this shape. -/
def parseISO (s : String) : Option Int :=
  match s.toList with
  | 'P' :: 'T' :: rest =>
    if rest = [] then none
    else
      let (h, r1) := parseOpt 'H' rest
      let (m, r2) := parseOpt 'M' r1
      let (sec, r3) := parseOpt 'S' r2
      if r3 = [] then some ((h * 3600 + m * 60 + sec : Nat) : Int) else none
  | _ => none

/-- Seconds denoted by an `"H:MM:SS"` string, the shape the pipeline builds
by appending `":00"` to its own `"HH:MM"` output; `none` otherwise. -/
def parseHMS (s : String) : Option Int :=
  match takeDigits s.toList with
  | ([], _) => none
  | (d1, rest) =>
    match rest with
    | ':' :: r1 =>
      match takeDigits r1 with
      | ([], _) => none
      | (d2, rest2) =>
        match rest2 with
        | ':' :: r2 =>
          match takeDigits r2 with
          | ([], _) => none
          | (d3, []) =>
            some ((digitsVal d1 * 3600 + digitsVal d2 * 60 + digitsVal d3 : Nat) : Int)
          | (_, _ :: _) => none
        | _ => none
    | _ => none

/-- `pd.to_timedelta` on one cell: `NaN ↦ NaT`, a parseable duration string
to its length in seconds, anything else raises `ValueError`. -/
def toTimedelta (c : Option String) : Except Unit (Option Int) :=
  match c with
  | none => .ok none
  | some s =>
    match parseISO s with
    | some v => .ok (some v)
    | none =>
      match parseHMS s with
      | some v => .ok (some v)
      | none => .error ()

/-- Python's `f'{n:02}'`: left-pad with a zero to width 2. -/
def pad2 (n : Int) : String :=
  if 0 ≤ n ∧ n < 10 then "0" ++ toString n else toString n

/-- The lambda inside `FlightOfferProcessor._format_duration`:
`f'{x.components.days * 24 + x.components.hours:02}:{x.components.minutes:02}'`.
Pandas components floor-divide, so hours = ⌊secs/3600⌋ and
minutes = ⌊secs/60⌋ mod 60; seconds are dropped (floored), not rounded. -/
def formatHHMM (secs : Int) : String :=
  pad2 (Int.fdiv secs 3600) ++ ":" ++ pad2 (Int.fdiv secs 60 % 60)

/-- `FlightOfferProcessor._format_duration` on one cell of the series:
`pd.to_timedelta` then the `HH:MM` formatting, with `NaT ↦ np.nan`. -/
def formatDurationCell (c : Option String) : Except Unit (Option String) :=
  match toTimedelta c with
  | .error e => .error e
  | .ok none => .ok none
  | .ok (some secs) => .ok (some (formatHHMM secs))

/-- `pd.to_datetime(...).dt.strftime('%Y-%m-%d %H:%M')` on one cell, modelled
on the ISO timestamp shape `YYYY-MM-DDTHH:MM:SS` the provider emits
(`segments[0]['departure']['at']`); any other shape raises. -/
def formatDateCell (s : String) : Except Unit String :=
  match s.toList with
  | [y1, y2, y3, y4, '-', m1, m2, '-', d1, d2, 'T', h1, h2, ':', n1, n2, ':', s1, s2] =>
    if ([y1, y2, y3, y4, m1, m2, d1, d2, h1, h2, n1, n2, s1, s2].all Char.isDigit) then
      .ok (String.mk [y1, y2, y3, y4, '-', m1, m2, '-', d1, d2, ' ', h1, h2, ':', n1, n2])
    else .error ()
  | _ => .error ()

/-! ## Offer normalizer (`flightOfferProcessor.py`) -/

/-- One line of the raw CSV as `pd.read_csv` types it: `Price` as float,
`Stops` as int, and the per-leg string cells as `Option String`
(`none` = empty field read back as `NaN`). -/
structure RawLine where
  currency : String
  price : ℚ
  date : String
  stops : Int
  iataOrigin : String
  iataDestination : String
  duration : Option String
  iata1Origin : Option String
  iata1Destination : Option String
  duration1 : Option String
  totalDuration : Option String
  deriving DecidableEq

/-- A table row once `iata2city` has added the four city columns; the
`Stop_Duration` column added later by `get_stop_duration` is carried as an
`Option` field initialised to `none`. -/
structure PRow where
  currency : String
  price : ℚ
  date : String
  stops : Int
  iataOrigin : String
  iataDestination : String
  duration : Option String
  iata1Origin : Option String
  iata1Destination : Option String
  duration1 : Option String
  totalDuration : Option String
  cityOrigin : Option String
  cityDestination : Option String
  city1Origin : Option String
  city1Destination : Option String
  stopDuration : Option String
  deriving DecidableEq

/-- A row of the final report after `reorder_columns`: the 14 retained
columns, in report order; `IATA1_Origin` and `City1_Origin` are dropped. -/
structure ReportRow where
  currency : String
  price : ℚ
  date : String
  stops : Int
  totalDuration : Option String
  stopDuration : Option String
  cityOrigin : Option String
  iataOrigin : String
  cityDestination : Option String
  iataDestination : String
  duration : Option String
  iata1Destination : Option String
  city1Destination : Option String
  duration1 : Option String
  deriving DecidableEq

/-- Row-wise effectful map: a column operation that may raise (as
`pd.to_timedelta` / `pd.to_datetime` do) applied across the whole table. -/
def mapE {α β : Type} (f : α → Except Unit β) : List α → Except Unit (List β)
  | [] => .ok []
  | x :: xs =>
    match f x with
    | .error e => .error e
    | .ok y =>
      match mapE f xs with
      | .error e => .error e
      | .ok ys => .ok (y :: ys)

/-- `FlightOfferProcessor.read_file`: `pd.read_csv` with its default
`header=0` consumes the FIRST line of the file as column labels, so the
table's rows are the remaining lines.  A missing file
(`FileNotFoundError`) is caught and yields `df = None` (`.ok none`); an
empty file raises `EmptyDataError`, which is not caught. -/
def read_file (file : Option (List RawLine)) : Except Unit (Option (List RawLine)) :=
  match file with
  | none => .ok none
  | some [] => .error ()
  | some lines => .ok (some (lines.drop 1))

/-- `FlightOfferProcessor.add_header`: `df.columns = [...]` renames the 11
columns in place; on the positional row records this changes nothing. -/
def add_header (t : List RawLine) : List RawLine := t

/-- `FlightOfferProcessor.iata2city`, parameterised by the side-file mapping
`iataCity` (`iata_codes.json`): `Series.map` adds the four city columns,
with unresolved identifiers (and `NaN` keys) mapping to `NaN`. -/
def iata2city (iataCity : String → Option String) (t : List RawLine) : List PRow :=
  t.map fun r =>
    { currency := r.currency
      price := r.price
      date := r.date
      stops := r.stops
      iataOrigin := r.iataOrigin
      iataDestination := r.iataDestination
      duration := r.duration
      iata1Origin := r.iata1Origin
      iata1Destination := r.iata1Destination
      duration1 := r.duration1
      totalDuration := r.totalDuration
      cityOrigin := iataCity r.iataOrigin
      cityDestination := iataCity r.iataDestination
      city1Origin := r.iata1Origin.bind iataCity
      city1Destination := r.iata1Destination.bind iataCity
      stopDuration := none }

/-- One row of `FlightOfferProcessor.process_duration`: `_format_duration`
applied to the `Duration`, `Duration1` and `Total_Duration` cells. -/
def processDurationRow (r : PRow) : Except Unit PRow :=
  match formatDurationCell r.duration with
  | .error e => .error e
  | .ok d =>
    match formatDurationCell r.duration1 with
    | .error e => .error e
    | .ok d1 =>
      match formatDurationCell r.totalDuration with
      | .error e => .error e
      | .ok td => .ok { r with duration := d, duration1 := d1, totalDuration := td }

/-- `FlightOfferProcessor.process_duration`. -/
def process_duration (t : List PRow) : Except Unit (List PRow) :=
  mapE processDurationRow t

/-- One row of `FlightOfferProcessor.format_date`. -/
def formatDateRow (r : PRow) : Except Unit PRow :=
  match formatDateCell r.date with
  | .error e => .error e
  | .ok d => .ok { r with date := d }

/-- `FlightOfferProcessor.format_date`. -/
def format_date (t : List PRow) : Except Unit (List PRow) :=
  mapE formatDateRow t

/-- Pandas string concatenation `series + ':00'`: `NaN` propagates. -/
def appendSecs (c : Option String) : Option String :=
  c.map (fun s => s ++ ":00")

/-- The `Stop_Duration` cell of `FlightOfferProcessor.get_stop_duration`:
`pd.to_timedelta` of the three POST-reformatting `HH:MM` cells with `':00'`
appended, the subtraction (any `NaT` operand gives `NaT`), then
`_format_duration` of the resulting timedelta. -/
def stopDurationCell (total dur dur1 : Option String) : Except Unit (Option String) :=
  match toTimedelta (appendSecs total) with
  | .error e => .error e
  | .ok t? =>
    match toTimedelta (appendSecs dur) with
    | .error e => .error e
    | .ok d? =>
      match toTimedelta (appendSecs dur1) with
      | .error e => .error e
      | .ok d1? =>
        match t?, d?, d1? with
        | some t, some d, some d1 => .ok (some (formatHHMM (t - d - d1)))
        | _, _, _ => .ok none

/-- One row of `FlightOfferProcessor.get_stop_duration`. -/
def stopDurationRow (r : PRow) : Except Unit PRow :=
  match stopDurationCell r.totalDuration r.duration r.duration1 with
  | .error e => .error e
  | .ok sd => .ok { r with stopDuration := sd }

/-- `FlightOfferProcessor.get_stop_duration`. -/
def get_stop_duration (t : List PRow) : Except Unit (List PRow) :=
  mapE stopDurationRow t

/-- `FlightOfferProcessor.eur2ils`: if every row's `Currency` is `"EUR"`,
multiply `Price` by the fixed rate 4.14 and relabel `Currency` to `"ILS"`;
otherwise print a warning (the `Bool` component) and change nothing. -/
def eur2ils (t : List PRow) : List PRow × Bool :=
  if t.all (fun r => r.currency = "EUR") then
    (t.map (fun r => { r with price := r.price * (4.14 : ℚ), currency := "ILS" }), false)
  else (t, true)

/-- Numpy/pandas `Series.round()` on one value: round half to even. -/
def roundHalfEven (q : ℚ) : Int :=
  if q - ⌊q⌋ < 1 / 2 then ⌊q⌋
  else if q - ⌊q⌋ > 1 / 2 then ⌊q⌋ + 1
  else if ⌊q⌋ % 2 = 0 then ⌊q⌋ else ⌊q⌋ + 1

/-- `FlightOfferProcessor.round_price` (the rounded value stays a float
column, so the price field stays `ℚ`). -/
def round_price (t : List PRow) : List PRow :=
  t.map fun r => { r with price := (roundHalfEven r.price : ℚ) }

/-- `FlightOfferProcessor.reorder_columns`: select and order the 14 report
columns; `IATA1_Origin` and `City1_Origin` are dropped. -/
def reorder_columns (t : List PRow) : List ReportRow :=
  t.map fun r =>
    { currency := r.currency
      price := r.price
      date := r.date
      stops := r.stops
      totalDuration := r.totalDuration
      stopDuration := r.stopDuration
      cityOrigin := r.cityOrigin
      iataOrigin := r.iataOrigin
      cityDestination := r.cityDestination
      iataDestination := r.iataDestination
      duration := r.duration
      iata1Destination := r.iata1Destination
      city1Destination := r.city1Destination
      duration1 := r.duration1 }

/-- `FlightOfferProcessor.process`: the guard on `df is None` (the `Bool`
result records the "no DataFrame" warning), then the fixed step sequence. -/
def process (iataCity : String → Option String) (df : Option (List RawLine)) :
    Except Unit (Option (List ReportRow) × Bool) :=
  match df with
  | none => .ok (none, true)
  | some t =>
    let t1 := add_header t
    let t2 := iata2city iataCity t1
    match process_duration t2 with
    | .error e => .error e
    | .ok t3 =>
      match format_date t3 with
      | .error e => .error e
      | .ok t4 =>
        match get_stop_duration t4 with
        | .error e => .error e
        | .ok t5 =>
          let t6 := (eur2ils t5).1
          let t7 := round_price t6
          .ok (some (reorder_columns t7), false)

/-- The files on disk visible to `save_csv`, as an association list from
path to saved table content. -/
def fsLookup (fs : List (String × List ReportRow)) (p : String) :
    Option (List ReportRow) :=
  (fs.find? (fun e => e.1 = p)).map (fun e => e.2)

/-- `FlightOfferProcessor.save_csv`: if a file exists at the path, warn
(the `Bool`) and do nothing; otherwise `self.df.to_csv(...)` — which, when
`self.df` is `None`, raises `AttributeError` (`.error ()`), and otherwise
writes the table to the new path. -/
def save_csv (fs : List (String × List ReportRow)) (df : Option (List ReportRow))
    (p : String) : Except Unit (List (String × List ReportRow) × Bool) :=
  if (fsLookup fs p).isSome then .ok (fs, true)
  else
    match df with
    | none => .error ()
    | some t => .ok ((p, t) :: fs, false)

/-! ## Concrete fixtures

Sample provider data (shapes from the spec's end-to-end scenario: JFK → TLV,
ceiling 400) and sample table rows, used to instantiate the theorems below. -/

/-- First leg of a one-stop JFK → TLV itinerary. -/
def segA : Segment :=
  { departureAt := "2025-01-03T10:30:00", departureIata := "JFK",
    arrivalIata := "VIE", duration := "PT2H30M" }

/-- Second leg of a one-stop JFK → TLV itinerary. -/
def segB : Segment :=
  { departureAt := "2025-01-03T14:00:00", departureIata := "VIE",
    arrivalIata := "TLV", duration := "PT3H15M" }

/-- A direct JFK → TLV segment. -/
def segDirect : Segment :=
  { departureAt := "2025-01-03T10:30:00", departureIata := "JFK",
    arrivalIata := "TLV", duration := "PT9H45M" }

/-- A two-segment (one-stop) itinerary. -/
def itinTwo : Itinerary := { duration := "PT9H45M", segments := [segA, segB] }

/-- A single-segment (direct) itinerary. -/
def itinDirect : Itinerary := { duration := "PT9H45M", segments := [segDirect] }

/-- A one-stop offer priced 350 EUR (accepted at ceiling 400). -/
def offerOK : Offer :=
  { itineraries := [itinTwo], price := { total := some 350, currency := "EUR" } }

/-- A direct offer priced 350 EUR (accepted at ceiling 400). -/
def offerDirect : Offer :=
  { itineraries := [itinDirect], price := { total := some 350, currency := "EUR" } }

/-- A direct offer priced 500 EUR (above the 400 ceiling, so filtered out). -/
def offerExpensive : Offer :=
  { itineraries := [itinDirect], price := { total := some 500, currency := "EUR" } }

/-- The row the fetcher emits for `offerOK`. -/
def rowOK : RawRow :=
  { currency := "EUR", price := 350, date := "2025-01-03T10:30:00", stops := 1,
    iataOrigin := "JFK", iataDestination := "VIE", duration := "PT2H30M",
    iata1Origin := "VIE", iata1Destination := "TLV", duration1 := "PT3H15M",
    totalDuration := "PT9H45M" }

/-- The row the fetcher emits for `offerDirect`. -/
def rowDirect : RawRow :=
  { currency := "EUR", price := 350, date := "2025-01-03T10:30:00", stops := 0,
    iataOrigin := "JFK", iataDestination := "TLV", duration := "PT9H45M",
    iata1Origin := "", iata1Destination := "", duration1 := "",
    totalDuration := "PT9H45M" }

/-- A raw CSV line for a direct 350 EUR JFK → TLV flight (empty second-leg
cells read back as `NaN`). -/
def rawA : RawLine :=
  { currency := "EUR", price := 350, date := "2025-01-03T10:30:00", stops := 0,
    iataOrigin := "JFK", iataDestination := "TLV", duration := some "PT9H45M",
    iata1Origin := none, iata1Destination := none, duration1 := none,
    totalDuration := some "PT9H45M" }

/-- A second raw CSV line, same route on the next day. -/
def rawB : RawLine :=
  { currency := "EUR", price := 350, date := "2025-01-04T08:00:00", stops := 0,
    iataOrigin := "JFK", iataDestination := "TLV", duration := some "PT9H45M",
    iata1Origin := none, iata1Destination := none, duration1 := none,
    totalDuration := some "PT9H45M" }

/-- A concrete identifier → city side mapping. -/
def iataCityJT (s : String) : Option String :=
  if s = "JFK" then some "New York" else if s = "TLV" then some "Tel Aviv" else none

/-- A table row as it stands entering `get_stop_duration`: durations already
reformatted to `HH:MM`, a direct flight (stop count 0), consistent in the
spec's sense (total duration = single leg duration). -/
def pRowZero : PRow :=
  { currency := "EUR", price := 350, date := "2025-01-03 10:30", stops := 0,
    iataOrigin := "JFK", iataDestination := "TLV", duration := some "02:30",
    iata1Origin := none, iata1Destination := none, duration1 := none,
    totalDuration := some "02:30", cityOrigin := some "New York",
    cityDestination := some "Tel Aviv", city1Origin := none,
    city1Destination := none, stopDuration := none }

/-- A one-stop row entering `get_stop_duration`: total `09:45`,
legs `02:30` and `03:15`. -/
def pRowStop : PRow :=
  { pRowZero with stops := 1, duration := some "02:30",
                  duration1 := some "03:15", totalDuration := some "09:45" }

/-- A row whose `Duration` cell holds a non-parseable duration string. -/
def pRowBad : PRow :=
  { pRowZero with duration := some "banana" }

/-- A row priced 100 EUR (the spec's currency-conversion example). -/
def pRowHundred : PRow :=
  { pRowZero with price := 100 }

/-- A row in a non-EUR currency. -/
def pRowUSD : PRow :=
  { pRowZero with currency := "USD" }

/-! ## Helper lemmas -/

/-- Any row produced by one loop iteration of `_add_offers_to_df` satisfies
the price bound, the stop bound, the empty-alt-fields invariant at stop
count 0, and draws its alt fields from segment 1 when the stop count is
positive. -/
theorem addOffer_ok_some_facts (o : Offer) (m : ℚ) (r : RawRow)
    (h : addOffer o m = .ok (some r)) :
    r.price ≤ m ∧ r.stops ≤ 1 ∧
      (r.stops = 0 → r.iata1Origin = "" ∧ r.iata1Destination = "" ∧ r.duration1 = "") ∧
      (r.stops ≠ 0 → ∃ itin seg1, o.itineraries.head? = some itin ∧
        itin.segments.get? 1 = some seg1 ∧ r.iata1Origin = seg1.departureIata ∧
        r.iata1Destination = seg1.arrivalIata ∧ r.duration1 = seg1.duration) := by
  unfold addOffer at h
  cases hit : o.itineraries.head? with
  | none => rw [hit] at h; simp at h
  | some itin =>
    rw [hit] at h
    cases hp : o.price.total with
    | none => rw [hp] at h; simp at h
    | some totalPrice =>
      rw [hp] at h
      simp only at h
      split_ifs at h with h1 h2 h3
      · simp at h
      · simp at h
      · -- stop count positive: second segment read
        cases hg : itin.segments.head? with
        | none => rw [hg] at h; simp at h
        | some seg0 =>
          rw [hg] at h
          cases hg1 : itin.segments.get? 1 with
          | none => rw [hg1] at h; simp at h
          | some seg1 =>
            rw [hg1] at h
            simp only [Except.ok.injEq, Option.some.injEq] at h
            subst h
            dsimp only
            refine ⟨le_of_not_lt h1, by omega, by intro h0; omega, ?_⟩
            intro _
            exact ⟨itin, seg1, rfl, hg1, rfl, rfl, rfl⟩
      · -- direct flight branch
        cases hg : itin.segments.head? with
        | none => rw [hg] at h; simp at h
        | some seg0 =>
          rw [hg] at h
          simp only [Except.ok.injEq, Option.some.injEq] at h
          subst h
          dsimp only
          have hl : 0 < itin.segments.length := by
            cases hsg : itin.segments with
            | nil => rw [hsg] at hg; simp at hg
            | cons a l => simp [hsg]
          refine ⟨le_of_not_lt h1, by omega, fun _ => ⟨rfl, rfl, rfl⟩, ?_⟩
          intro h0
          exact absurd (by omega) h0

/-- Every row in a successful `_add_offers_to_df` result is either carried
over from the input frame or produced by `addOffer` on some input offer. -/
theorem addOffersToDf_mem (offerLst : List Offer) :
    ∀ (df : List RawRow) (m : ℚ) (rows : List RawRow),
      addOffersToDf df offerLst m = .ok rows →
      ∀ r ∈ rows, r ∈ df ∨ ∃ o ∈ offerLst, addOffer o m = .ok (some r) := by
  induction offerLst with
  | nil =>
    intro df m rows h r hr
    simp only [addOffersToDf, Except.ok.injEq] at h
    subst h
    exact Or.inl hr
  | cons o rest ih =>
    intro df m rows h r hr
    simp only [addOffersToDf] at h
    cases ha : addOffer o m with
    | error e => rw [ha] at h; simp at h
    | ok v =>
      rw [ha] at h
      cases v with
      | none =>
        rcases ih df m rows h r hr with hdf | ⟨o', ho', hr'⟩
        · exact Or.inl hdf
        · exact Or.inr ⟨o', List.mem_cons_of_mem o ho', hr'⟩
      | some r0 =>
        rcases ih (df ++ [r0]) m rows h r hr with hdf | ⟨o', ho', hr'⟩
        · rcases List.mem_append.mp hdf with hl | hr0
          · exact Or.inl hl
          · rcases List.mem_singleton.mp hr0 with rfl
            exact Or.inr ⟨o, List.mem_cons_self o rest, ha⟩
        · exact Or.inr ⟨o', List.mem_cons_of_mem o ho', hr'⟩

/-! ## Claims about the offer fetcher -/

/-- C2: each row emitted by the fetcher's filtering/flattening has price ≤
the configured ceiling and stop count ≤ 1 (segment count ≤ 2); an offer whose
price fails to parse as a decimal, exceeds the ceiling, or whose first
itinerary has more than two segments is skipped without error and produces
no row. -/
theorem fetcher_row_bounds :
    (∀ (offerLst : List Offer) (maxPrice : ℚ) (rows : List RawRow),
        addOffersToDf [] offerLst maxPrice = .ok rows →
        ∀ r ∈ rows, r.price ≤ maxPrice ∧ r.stops ≤ 1) ∧
    (∀ (o : Offer) (m : ℚ) (itin : Itinerary) (rest : List Itinerary),
        o.itineraries = itin :: rest → o.price.total = none →
        addOffer o m = .ok none) ∧
    (∀ (o : Offer) (m : ℚ) (itin : Itinerary) (rest : List Itinerary) (p : ℚ),
        o.itineraries = itin :: rest → o.price.total = some p → p > m →
        addOffer o m = .ok none) ∧
    (∀ (o : Offer) (m : ℚ) (itin : Itinerary) (rest : List Itinerary) (p : ℚ),
        o.itineraries = itin :: rest → o.price.total = some p → p ≤ m →
        2 < itin.segments.length → addOffer o m = .ok none) := by
  refine ⟨?_, ?_, ?_, ?_⟩
  · intro offerLst maxPrice rows h r hr
    rcases addOffersToDf_mem offerLst [] maxPrice rows h r hr with hin | ⟨o, _, ho⟩
    · simp at hin
    · have hf := addOffer_ok_some_facts o maxPrice r ho
      exact ⟨hf.1, hf.2.1⟩
  · intro o m itin rest hit hp
    unfold addOffer
    rw [hit, hp]
    rfl
  · intro o m itin rest p hit hp hgt
    unfold addOffer
    rw [hit, hp]
    simp only [List.head?_cons]
    rw [if_pos hgt]
  · intro o m itin rest p hit hp hle hseg
    unfold addOffer
    rw [hit, hp]
    simp only [List.head?_cons, if_neg (not_lt.mpr hle)]
    rw [if_pos (show ((itin.segments.length : Int) - 1 > 1) by omega)]

/-- Witness for `fetcher_row_bounds`: the one-stop 350 EUR offer at ceiling
400 produces `rowOK`, which satisfies both bounds. -/
theorem fetcher_row_bounds_witness :
    rowOK.price ≤ 400 ∧ rowOK.stops ≤ 1 :=
  fetcher_row_bounds.1 [offerOK] 400 [rowOK] (by decide) rowOK (by decide)

/-- C3 counterexample: on a provider response whose single offer is priced
500 (above the 400 ceiling), the success branch of `get_flight_offers`
appends no row yet returns the full provider list — which differs from the
accepted offer list the claim says it returns. -/
theorem get_flight_offers_returned_cex :
    getFlightOffersSuccess [offerExpensive] =
      .ok { appendedRows := [], returned := [offerExpensive] } ∧
    acceptedOffers [offerExpensive] 400 = [] ∧
    [offerExpensive] ≠ acceptedOffers [offerExpensive] 400 := by decide

/-- C3 amended: on success, `get_flight_offers` returns the provider's full
result set unchanged; the price-parse / ceiling / segment-count filters
restrict only the rows appended to the output file. -/
theorem get_flight_offers_returns_full_list (offerLst : List Offer)
    (res : FetchSuccess) (h : getFlightOffersSuccess offerLst = .ok res) :
    res.returned = offerLst ∧
      addOffersToDf [] offerLst 400 = .ok res.appendedRows := by
  unfold getFlightOffersSuccess at h
  cases ha : addOffersToDf [] offerLst 400 with
  | error e => rw [ha] at h; simp at h
  | ok rows =>
    rw [ha] at h
    simp only [Except.ok.injEq] at h
    subst h
    exact ⟨rfl, rfl⟩

/-- Witness for `get_flight_offers_returns_full_list` at the filtered-out
500 EUR offer. -/
theorem get_flight_offers_returns_full_list_witness :
    (FetchSuccess.mk [] [offerExpensive]).returned = [offerExpensive] ∧
      addOffersToDf [] [offerExpensive] 400 =
        .ok (FetchSuccess.mk [] [offerExpensive]).appendedRows :=
  get_flight_offers_returns_full_list [offerExpensive]
    (FetchSuccess.mk [] [offerExpensive]) (by decide)

/-- C9: every raw row emitted by the fetcher with stop count zero has the
empty string in the three second-segment fields; with nonzero stop count
those fields are populated from an existing second segment of the offer's
first itinerary. -/
theorem fetcher_alt_fields (offerLst : List Offer) (m : ℚ) (rows : List RawRow)
    (h : addOffersToDf [] offerLst m = .ok rows) (r : RawRow) (hr : r ∈ rows) :
    (r.stops = 0 →
      r.iata1Origin = "" ∧ r.iata1Destination = "" ∧ r.duration1 = "") ∧
    (r.stops ≠ 0 → ∃ o ∈ offerLst, ∃ itin seg1,
      o.itineraries.head? = some itin ∧ itin.segments.get? 1 = some seg1 ∧
      r.iata1Origin = seg1.departureIata ∧
      r.iata1Destination = seg1.arrivalIata ∧
      r.duration1 = seg1.duration) := by
  rcases addOffersToDf_mem offerLst [] m rows h r hr with hin | ⟨o, ho, hsome⟩
  · simp at hin
  · have hf := addOffer_ok_some_facts o m r hsome
    exact ⟨hf.2.2.1, fun h0 => ⟨o, ho, hf.2.2.2 h0⟩⟩

/-- Witness for `fetcher_alt_fields` at the direct 350 EUR offer, whose row
has stop count 0. -/
theorem fetcher_alt_fields_witness :
    (rowDirect.stops = 0 →
      rowDirect.iata1Origin = "" ∧ rowDirect.iata1Destination = "" ∧
        rowDirect.duration1 = "") ∧
    (rowDirect.stops ≠ 0 → ∃ o ∈ [offerDirect], ∃ itin seg1,
      o.itineraries.head? = some itin ∧ itin.segments.get? 1 = some seg1 ∧
      rowDirect.iata1Origin = seg1.departureIata ∧
      rowDirect.iata1Destination = seg1.arrivalIata ∧
      rowDirect.duration1 = seg1.duration) :=
  fetcher_alt_fields [offerDirect] 400 [rowDirect] (by decide) rowDirect
    (by decide)

/-- C10: the fetcher's per-offer processing reads only the offer's price
object and the first itinerary (`itineraries[0]`): two offers agreeing on
those are filtered and flattened identically, so additional itineraries
never affect acceptance or the emitted row. -/
theorem addOffer_first_itinerary_only (o o' : Offer) (m : ℚ)
    (hprice : o.price = o'.price)
    (hhead : o.itineraries.head? = o'.itineraries.head?) :
    addOffer o m = addOffer o' m := by
  unfold addOffer
  rw [hprice, hhead]

/-- Witness for `addOffer_first_itinerary_only`: appending a second
itinerary to a direct offer leaves the processing result unchanged. -/
theorem addOffer_first_itinerary_only_witness :
    addOffer { itineraries := [itinDirect],
               price := { total := some 350, currency := "EUR" } } 400 =
      addOffer { itineraries := [itinDirect, itinTwo],
                 price := { total := some 350, currency := "EUR" } } 400 :=
  addOffer_first_itinerary_only _ _ 400 rfl rfl

/-! ## Claims about the offer normalizer -/

/-- C1 (evaluation at the failing input): the fetcher writes the raw file
with no header row, but `read_file` (`pd.read_csv` with its default
`header=0`) consumes the first raw line as column labels.  Loading a
two-line raw file yields a one-row table, and `process` then emits one
report row — not the one-per-raw-row the claim states. -/
theorem read_file_consumes_first_raw_row :
    read_file (some [rawA, rawB]) = .ok (some [rawB]) ∧
    (process iataCityJT (some [rawB])).map
        (fun p => Option.map List.length p.1) = .ok (some 1) ∧
    [rawA, rawB].length = 2 := by decide

/-- C4 (evaluation at the failing input): with the raw file absent
(`df = None`), `process` is the promised warning no-op, but `save_csv` to a
not-yet-existing path is not: it reaches `None.to_csv` and raises
(`AttributeError`) instead of warning and no-opping. -/
theorem load_failed_save_raises :
    process iataCityJT none = .ok (none, true) ∧
    save_csv [] none "offers_back.csv" = .error () := ⟨rfl, rfl⟩

/-- C5 counterexample: a consistent stop-count-0 row (total duration equal
to the single leg duration, second-leg duration empty) gets a MISSING
stop-duration from step 5, not the well-defined value the claim promises. -/
theorem stop_duration_zero_stops_cex :
    pRowZero.stops = 0 ∧
    pRowZero.totalDuration = pRowZero.duration ∧
    get_stop_duration [pRowZero] = .ok [{ pRowZero with stopDuration := none }] ∧
    ({ pRowZero with stopDuration := none } : PRow).stopDuration ≠ some "00:00" := by
  decide

/-- C5 amended: step 5 computes stop-duration from the post-formatting
`HH:MM` values (each re-parsed with `":00"` appended): when all three
duration cells are present and parseable the result is the `HH:MM`-formatted
total − (leg1 + leg2); a row with a missing second-leg duration — in
particular every stop-count-0 row — gets a missing stop-duration, provided
the cells that are present parse without raising. -/
theorem stop_duration_spec :
    (∀ (r : PRow) (t? d? : Option Int),
        toTimedelta (appendSecs r.totalDuration) = .ok t? →
        toTimedelta (appendSecs r.duration) = .ok d? →
        r.duration1 = none →
        get_stop_duration [r] = .ok [{ r with stopDuration := none }]) ∧
    (∀ (r : PRow) (st sd sd1 : Int),
        toTimedelta (appendSecs r.totalDuration) = .ok (some st) →
        toTimedelta (appendSecs r.duration) = .ok (some sd) →
        toTimedelta (appendSecs r.duration1) = .ok (some sd1) →
        get_stop_duration [r] =
          .ok [{ r with stopDuration := some (formatHHMM (st - sd - sd1)) }]) := by
  constructor
  · intro r t? d? ht hd h1
    have h3 : toTimedelta (appendSecs r.duration1) = .ok none := by rw [h1]; rfl
    simp only [get_stop_duration, mapE, stopDurationRow, stopDurationCell, ht, hd, h3]
  · intro r st sd sd1 ht hd hd1
    simp only [get_stop_duration, mapE, stopDurationRow, stopDurationCell, ht, hd, hd1]

/-- Witness for `stop_duration_spec`: the one-stop row with total `09:45`
and legs `02:30`, `03:15` (35100, 9000 and 11700 seconds). -/
theorem stop_duration_spec_witness :
    get_stop_duration [pRowStop] =
      .ok [{ pRowStop with stopDuration := some (formatHHMM (35100 - 9000 - 11700)) }] :=
  stop_duration_spec.2 pRowStop 35100 9000 11700 (by decide) (by decide) (by decide)

/-- C6 counterexample: a non-parseable duration cell raises
(`pd.to_timedelta`'s `ValueError`) instead of becoming a missing-value
marker: both the cell function and the whole reformatting step error. -/
theorem format_duration_nonparseable_cex :
    formatDurationCell (some "banana") = .error () ∧
    process_duration [pRowBad] = .error () := by decide

/-- C6 amended: the reformatting step maps a parseable ISO-8601-like
duration string to an `HH:MM` string with total minutes floored (seconds
dropped, not rounded) and maps an ABSENT duration to a missing-value marker;
a non-parseable duration string raises an error. -/
theorem format_duration_spec :
    formatDurationCell none = .ok none ∧
    (∀ (s : String) (v : Int), toTimedelta (some s) = .ok (some v) →
        formatDurationCell (some s) = .ok (some (formatHHMM v))) ∧
    formatDurationCell (some "PT9H45M") = .ok (some "09:45") ∧
    formatDurationCell (some "PT1H30M45S") = .ok (some "01:30") := by
  refine ⟨rfl, ?_, by decide, by decide⟩
  intro s v h
  simp only [formatDurationCell, h]

/-- Witness for `format_duration_spec` at `"PT2H30M"` (9000 seconds). -/
theorem format_duration_spec_witness :
    formatDurationCell (some "PT2H30M") = .ok (some (formatHHMM 9000)) :=
  format_duration_spec.2.1 "PT2H30M" 9000 (by decide)

/-- C7: currency conversion is all-or-nothing: if every row's currency is
`"EUR"`, every price is multiplied by 4.14 (a 100-priced row becomes 414)
and every currency is relabeled `"ILS"`; if any row's currency differs, the
warning flag is set and no row changes. -/
theorem eur2ils_spec :
    (∀ t : List PRow, (∀ r ∈ t, r.currency = "EUR") →
        eur2ils t =
          (t.map (fun r => { r with price := r.price * (4.14 : ℚ), currency := "ILS" }),
            false)) ∧
    (∀ (t : List PRow) (r0 : PRow), r0 ∈ t → r0.currency ≠ "EUR" →
        eur2ils t = (t, true)) ∧
    (∀ r : PRow, r.currency = "EUR" → r.price = 100 →
        eur2ils [r] = ([{ r with price := 414, currency := "ILS" }], false)) := by
  refine ⟨?_, ?_, ?_⟩
  · intro t h
    unfold eur2ils
    rw [if_pos (by rw [List.all_eq_true]; intro r hr; exact decide_eq_true (h r hr))]
  · intro t r0 hr0 hne
    unfold eur2ils
    rw [if_neg]
    intro hall
    rw [List.all_eq_true] at hall
    exact hne (of_decide_eq_true (hall r0 hr0))
  · intro r hcur hp
    unfold eur2ils
    rw [if_pos (by
      rw [List.all_eq_true]
      intro x hx
      rw [List.mem_singleton] at hx
      subst hx
      exact decide_eq_true hcur)]
    have h414 : r.price * (4.14 : ℚ) = 414 := by rw [hp]; norm_num
    simp only [List.map_cons, List.map_nil, h414]

/-- Witness for `eur2ils_spec`: the 100-EUR row becomes 414 ILS. -/
theorem eur2ils_spec_witness :
    eur2ils [pRowHundred] =
      ([{ pRowHundred with price := 414, currency := "ILS" }], false) :=
  eur2ils_spec.2.2 pRowHundred rfl rfl

/-- C8: `save_csv` never overwrites: at a path that already holds a file it
is a warning no-op leaving the file system unchanged, and calling it twice
at a fresh path writes the file exactly once — the second call warns,
changes nothing, and the path still holds the first call's content. -/
theorem save_csv_guard :
    (∀ (fs : List (String × List ReportRow)) (df : Option (List ReportRow))
        (p : String) (c : List ReportRow),
        fsLookup fs p = some c → save_csv fs df p = .ok (fs, true)) ∧
    (∀ (fs : List (String × List ReportRow)) (t : List ReportRow) (p : String),
        fsLookup fs p = none →
        save_csv fs (some t) p = .ok ((p, t) :: fs, false) ∧
        fsLookup ((p, t) :: fs) p = some t ∧
        save_csv ((p, t) :: fs) (some t) p = .ok ((p, t) :: fs, true)) := by
  constructor
  · intro fs df p c h
    unfold save_csv
    rw [h]
    rfl
  · intro fs t p h
    have h2 : fsLookup ((p, t) :: fs) p = some t := by
      unfold fsLookup
      rw [List.find?_cons_of_pos _ (by simp)]
      rfl
    refine ⟨?_, h2, ?_⟩
    · unfold save_csv
      rw [h]
      rfl
    · unfold save_csv
      rw [h2]
      rfl

/-- Witness for `save_csv_guard`: saving twice to the same fresh path. -/
theorem save_csv_guard_witness :
    save_csv [] (some []) "offers_back.csv" =
        .ok ([("offers_back.csv", [])], false) ∧
    fsLookup [("offers_back.csv", [])] "offers_back.csv" = some [] ∧
    save_csv [("offers_back.csv", [])] (some []) "offers_back.csv" =
        .ok ([("offers_back.csv", [])], true) :=
  save_csv_guard.2 [] [] "offers_back.csv" rfl

end FlightSearch
